import Mathlib

/-!
Verification of the twilio-audio-downloader tool server
(`src/twilio_audio_downloader_mcp/server.py`).

The development shallowly embeds the core operations of the server:
credential routing (`_load_auth_from_env`, `get_auth_for_url`),
content-type resolution (`get_file_extension_from_content_type`),
the fetch operation (`download_twilio_audio`) and the configuration
snapshot (`get_server_config`).  Strings are Lean `String`s, byte
sequences are `List Nat`, the network is an explicit oracle argument,
and the relevant behaviour of the external libraries (`urllib.parse`
netloc/path extraction, `requests.Response.raise_for_status`, base64
encoding) is modelled from their documented semantics.
-/

/-- Splits a character list at the first occurrence of `sep`:
`some (before, after)` when `sep` occurs, `none` otherwise.
Models Python `str.split(sep, 1)` and `str.find(sep)`. -/
def breakAt (sep : Char) : List Char → Option (List Char × List Char)
  | [] => none
  | c :: rest =>
    if c = sep then some ([], rest)
    else (breakAt sep rest).map (fun p => (c :: p.1, p.2))

/-- Python `value.split(sep, 1)` restricted to the case used by the code:
the pair of the part before the first `sep` and the part after it
(`(s, "")` when `sep` is absent; the code guards with `sep in s` first). -/
def splitFirst (s : String) (sep : Char) : String × String :=
  match breakAt sep s.toList with
  | some (a, b) => (String.mk a, String.mk b)
  | none => (s, "")

/-- `leadsWith p c` holds when `p` is an initial run of `c`. -/
def leadsWith : List Char → List Char → Bool
  | [], _ => true
  | _ :: _, [] => false
  | p :: ps, c :: cs => p == c && leadsWith ps cs

/-- Python `s.startswith(p)`: literal, case-sensitive prefix test. -/
def pyStartsWith (s p : String) : Bool :=
  leadsWith p.toList s.toList

/-- `subOf pat hay` is Python `pat in hay`: contiguous substring test. -/
def subOf (pat : List Char) : List Char → Bool
  | [] => pat.isEmpty
  | c :: rest => leadsWith pat (c :: rest) || subOf pat rest

/-- Python substring containment `pat in hay` on strings. -/
def strHasSub (hay pat : String) : Bool :=
  subOf pat.toList hay.toList

/-- Python `s.lower()` (ASCII case mapping, as used by the code). -/
def pyLower (s : String) : String :=
  String.mk (s.toList.map Char.toLower)

/-- Python `s.split(sep)` for a one-character separator: every maximal
run between separators, including empty runs (never the empty list). -/
def splitChar (sep : Char) : List Char → List (List Char)
  | [] => [[]]
  | c :: rest =>
    if c = sep then [] :: splitChar sep rest
    else match splitChar sep rest with
      | [] => [[c]]
      | g :: gs => (c :: g) :: gs

/-- `splitChar` on strings. -/
def pySplitChar (s : String) (sep : Char) : List String :=
  (splitChar sep s.toList).map String.mk

/-- Python `s.strip()`: remove leading and trailing whitespace. -/
def pyStrip (s : String) : String :=
  String.mk (((s.toList.dropWhile Char.isWhitespace).reverse.dropWhile Char.isWhitespace).reverse)

/-- Characters allowed in a URL scheme by `urllib.parse` (letters, digits,
`+`, `-`, `.`). -/
def schemeChars : List Char :=
  "abcdefghijklmnopqrstuvwxyzABCDEFGHIJKLMNOPQRSTUVWXYZ0123456789+-.".toList

/-- Models the scheme-stripping step of `urllib.parse.urlsplit`: when the
input has a `:` at position at least 1 and everything before it is a valid
scheme beginning with a letter, the result is the part after the `:`;
otherwise the input is unchanged. -/
def stripScheme (cs : List Char) : List Char :=
  match breakAt ':' cs with
  | some (before, after) =>
    if 0 < before.length ∧ (before.headD ' ').isAlpha = true
        ∧ before.all (fun c => schemeChars.contains c) = true
    then after else cs
  | none => cs

/-- Models `urllib.parse.urlparse(url).netloc`: after scheme stripping,
when the rest starts with `//`, the characters up to the first of
`/`, `?`, `#`; otherwise the empty string. -/
def netlocOf (url : String) : String :=
  match stripScheme url.toList with
  | '/' :: '/' :: rest =>
    String.mk (rest.takeWhile (fun c => c ≠ '/' && c ≠ '?' && c ≠ '#'))
  | _ => ""

/-- Models the params-splitting step of `urllib.parse.urlparse`: when the
last `/`-segment of the path contains `;`, the path is cut at that first
`;` (the params are dropped); otherwise the path is unchanged. -/
def removeParams (p : String) : String :=
  if p.toList.contains ';' then
    let parts := pySplitChar p '/'
    let last := parts.getLastD ""
    if last.toList.contains ';' then
      String.intercalate "/" (parts.dropLast ++ [String.mk (last.toList.takeWhile (fun c => c ≠ ';'))])
    else p
  else p

/-- Models `urllib.parse.urlparse(url).path`: after scheme and netloc
stripping, the characters before the first `#`, then before the first `?`,
with params removed. -/
def pathOf (url : String) : String :=
  let cs := stripScheme url.toList
  let cs2 := match cs with
    | '/' :: '/' :: rest => rest.dropWhile (fun c => c ≠ '/' && c ≠ '?' && c ≠ '#')
    | other => other
  removeParams (String.mk ((cs2.takeWhile (fun c => c ≠ '#')).takeWhile (fun c => c ≠ '?')))

/-- Python `parsed_url.path.split('/')[-1]`: the last `/`-separated
segment of the path (the list returned by `split` is never empty). -/
def lastPathSegment (url : String) : String :=
  (pySplitChar (pathOf url) '/').getLastD ""

/-- One parsed `AUTH_*` credential entry, exactly the dict stored by
`TwilioConfig._load_auth_from_env`. -/
structure AuthCred where
  username : String
  password : String
  base_url : String
deriving DecidableEq, Repr

/-- Python dict assignment `d[k] = v` on an insertion-ordered association
list: overwrite in place when the key is present, append otherwise. -/
def dictInsert (d : List (String × AuthCred)) (k : String) (v : AuthCred) :
    List (String × AuthCred) :=
  if d.any (fun p => p.1 = k) then d.map (fun p => if p.1 = k then (k, v) else p)
  else d ++ [(k, v)]

/-- `TwilioConfig._load_auth_from_env`: scan the environment entries in
order; for each key starting with `AUTH_` whose value contains `|`, split
on the first `|` into base-url and auth parts; when the auth part contains
`:`, split it on the first `:` into username and password; when the
base-url has a non-empty netloc, register the credential under the
lowercased netloc (overwriting any earlier entry).  Malformed entries are
skipped silently. -/
def load_auth_from_env (env : List (String × String)) : List (String × AuthCred) :=
  env.foldl (fun d kv =>
    if pyStartsWith kv.1 "AUTH_" then
      if kv.2.toList.contains '|' then
        let sp := splitFirst kv.2 '|'
        if sp.2.toList.contains ':' then
          let up := splitFirst sp.2 ':'
          let nl := netlocOf sp.1
          if nl ≠ "" then
            dictInsert d (pyLower nl)
              { username := up.1, password := up.2, base_url := sp.1 }
          else d
        else d
      else d
    else d) []

/-- The configuration state of the server (`TwilioConfig`): bind host and
port, log level, the distinguished twilio credential pair, the twilio base
url, and the `AUTH_*` credential table. -/
structure TwilioConfig where
  host : String
  port : Nat
  log_level : String
  twilio_account_sid : String
  twilio_auth_token : String
  twilio_base_url : String
  auth_credentials : List (String × AuthCred)
deriving DecidableEq, Repr

/-- `get_auth_for_url`: lowercase the netloc of the url; when it contains
the substring `twilio.com` and both twilio credentials are non-empty,
return the twilio pair; otherwise look the netloc up in the credential
table. -/
def get_auth_for_url (cfg : TwilioConfig) (url : String) : Option (String × String) :=
  let netloc := pyLower (netlocOf url)
  if strHasSub netloc "twilio.com" && !cfg.twilio_account_sid.isEmpty
      && !cfg.twilio_auth_token.isEmpty then
    some (cfg.twilio_account_sid, cfg.twilio_auth_token)
  else
    match List.lookup netloc cfg.auth_credentials with
    | some cred => some (cred.username, cred.password)
    | none => none

/-- The fixed content-type table of
`get_file_extension_from_content_type`, in source order. -/
def extension_map : List (String × String) :=
  [("audio/wav", ".wav"),
   ("audio/x-wav", ".wav"),
   ("audio/wave", ".wav"),
   ("audio/mpeg", ".mp3"),
   ("audio/mp3", ".mp3"),
   ("audio/mp4", ".m4a"),
   ("audio/m4a", ".m4a"),
   ("audio/aac", ".aac"),
   ("audio/ogg", ".ogg"),
   ("audio/flac", ".flac"),
   ("audio/webm", ".webm"),
   ("audio/3gpp", ".3gp"),
   ("audio/amr", ".amr")]

/-- `get_file_extension_from_content_type`: lowercase, cut at the first
`;`, strip whitespace, then look up in the fixed table with fallback
`.bin`. -/
def get_file_extension_from_content_type (content_type : String) : String :=
  let ct := pyStrip ((pySplitChar (pyLower content_type) ';').headD "")
  (List.lookup ct extension_map).getD ".bin"

/-- The fields of the `AudioDownloadResponse` pydantic model, as returned
by `.dict()` on the failure paths of `download_twilio_audio`. -/
structure AudioDownloadResponse where
  success : Bool
  data : Option String
  filename : String
  content_type : String
  size_bytes : Nat
  error_message : String
deriving DecidableEq, Repr

/-- `AudioDownloadResponse(success=False, error_message=msg).dict()`:
every other field keeps its model default. -/
def failureResponse (msg : String) : AudioDownloadResponse :=
  { success := false, data := none, filename := "", content_type := "",
    size_bytes := 0, error_message := msg }

/-- An HTTP response as seen by the code: status, reason phrase,
optional `content-type` header, and the body as the chunk sequence
yielded by `iter_content`. -/
structure HttpResponse where
  status : Nat
  reason : String
  contentType : Option String
  chunks : List (List Nat)
deriving DecidableEq, Repr

/-- Outcome of `requests.get`: either an exception (network, DNS, TLS,
timeout — all `RequestException`s) carrying its message, or a response. -/
inductive NetOutcome where
  | exn (msg : String)
  | ok (resp : HttpResponse)
deriving DecidableEq, Repr

/-- The two shapes of dictionary `download_twilio_audio` can return: an
`AudioDownloadResponse.dict()` (all failure paths), or the
`EmbeddedResource.dict()` built on the success path, which carries only a
resource uri, the base64 blob and the MIME type. -/
inductive ToolResult where
  | response (r : AudioDownloadResponse)
  | embedded (uri : String) (blob : String) (mimeType : String)
deriving DecidableEq, Repr

/-- The standard base64 alphabet. -/
def b64Alphabet : List Char :=
  "ABCDEFGHIJKLMNOPQRSTUVWXYZabcdefghijklmnopqrstuvwxyz0123456789+/".toList

/-- The base64 digit for a 6-bit value. -/
def b64Char (n : Nat) : Char := b64Alphabet.getD n 'A'

/-- Standard base64 encoding of a byte list (`base64.b64encode`),
three input bytes per four output characters, `=`-padded. -/
def b64Encode : List Nat → List Char
  | [] => []
  | [a] => [b64Char (a / 4), b64Char (a % 4 * 16), '=', '=']
  | [a, b] => [b64Char (a / 4), b64Char (a % 4 * 16 + b / 16), b64Char (b % 16 * 4), '=']
  | a :: b :: c :: rest =>
    b64Char (a / 4) :: b64Char (a % 4 * 16 + b / 16)
      :: b64Char (b % 16 * 4 + c / 64) :: b64Char (c % 64) :: b64Encode rest

/-- `base64.b64encode(audio_data).decode('utf-8')`. -/
def b64String (bs : List Nat) : String := String.mk (b64Encode bs)

/-- The message of the `requests.HTTPError` raised by
`Response.raise_for_status` for a 4xx or 5xx status. -/
def raiseForStatusMsg (resp : HttpResponse) (url : String) : String :=
  if resp.status < 500 then
    toString resp.status ++ " Client Error: " ++ resp.reason ++ " for url: " ++ url
  else
    toString resp.status ++ " Server Error: " ++ resp.reason ++ " for url: " ++ url

/-- `download_twilio_audio(url)`, with the network as an explicit oracle
mapping the url and the resolved auth pair to a `NetOutcome`.  Follows the
source order: scheme prefix check, netloc check, credential resolution,
GET (a raised `RequestException` is caught into the
`HTTP request failed for {url}: {e}` failure), `raise_for_status` (raises
for 4xx/5xx only), content-type and filename resolution, body buffering,
empty check, base64 encoding and the `EmbeddedResource` return. -/
def download_twilio_audio (cfg : TwilioConfig)
    (net : String → Option (String × String) → NetOutcome) (url : String) : ToolResult :=
  if !(pyStartsWith url "http://" || pyStartsWith url "https://") then
    .response (failureResponse "Only HTTP and HTTPS URLs are supported")
  else if (netlocOf url).isEmpty then
    .response (failureResponse ("Invalid URL format: " ++ url))
  else
    match net url (get_auth_for_url cfg url) with
    | .exn msg =>
      .response (failureResponse ("HTTP request failed for " ++ url ++ ": " ++ msg))
    | .ok resp =>
      if 400 ≤ resp.status ∧ resp.status < 600 then
        .response (failureResponse
          ("HTTP request failed for " ++ url ++ ": " ++ raiseForStatusMsg resp url))
      else
        let content_type := resp.contentType.getD "application/octet-stream"
        let file_extension := get_file_extension_from_content_type content_type
        let filename := "twilio_audio_" ++ lastPathSegment url ++ file_extension
        let audio_data := resp.chunks.foldl (fun acc c => acc ++ c) []
        if audio_data.length = 0 then
          .response (failureResponse "Downloaded file is empty")
        else
          .embedded ("file://" ++ filename) (b64String audio_data) content_type

/-- The configuration snapshot returned by `get_server_config`. -/
structure ServerConfigSnapshot where
  server_name : String
  version : String
  host : String
  port : Nat
  log_level : String
  twilio_configured : Bool
  additional_auth_domains : List String
  supported_protocols : List String
  supported_audio_formats : List String
deriving DecidableEq, Repr

/-- `get_server_config()`: the non-secret projection of the
configuration. -/
def get_server_config (cfg : TwilioConfig) : ServerConfigSnapshot :=
  { server_name := "Twilio Audio Downloader MCP Server"
    version := "0.1.0"
    host := cfg.host
    port := cfg.port
    log_level := cfg.log_level
    twilio_configured := !cfg.twilio_account_sid.isEmpty && !cfg.twilio_auth_token.isEmpty
    additional_auth_domains := cfg.auth_credentials.map Prod.fst
    supported_protocols := ["http", "https"]
    supported_audio_formats :=
      ["wav", "mp3", "m4a", "aac", "ogg", "flac", "webm", "3gp", "amr"] }

/-! ## Concrete configurations and network oracles used by the claims -/

/-- The default `TwilioConfig` field values of the source class, with an
empty credential table. -/
def baseConfig : TwilioConfig :=
  { host := "localhost", port := 8080, log_level := "INFO",
    twilio_account_sid := "", twilio_auth_token := "",
    twilio_base_url := "https://api.twilio.com", auth_credentials := [] }

/-- A configuration with both twilio credentials set. -/
def twilioOnConfig : TwilioConfig :=
  { baseConfig with twilio_account_sid := "ACxxxxxxxx", twilio_auth_token := "token123" }

/-- A network oracle always answering 200 with a 3-byte `audio/wav` body
split in two chunks. -/
def okWavNet : String → Option (String × String) → NetOutcome :=
  fun _ _ => NetOutcome.ok
    { status := 200, reason := "OK", contentType := some "audio/wav", chunks := [[1], [2, 3]] }

/-! ## Claims -/

/-- C1: on the success path `download_twilio_audio` does NOT return a
result with a size field.  Evaluated at a URL whose fetch succeeds
(valid scheme, non-empty host, status 200, 3-byte body), the code
returns the `EmbeddedResource` dictionary, which carries only a resource
uri, the base64 blob and the MIME type — the `AudioDownloadResponse`
with `success=True` and `size_bytes=len(audio_data)` promised by the
function docstring is commented out in the source.  This theorem
evaluates the code at that failing input. -/
theorem C1_success_path_returns_embedded_resource :
    download_twilio_audio twilioOnConfig okWavNet "https://api.twilio.com/rec.wav" =
      ToolResult.embedded "file://twilio_audio_rec.wav.wav" "AQID" "audio/wav" := by
  decide

/-- C2: for every URL whose lowercased netloc contains the substring
`twilio.com`, with both twilio credentials non-empty, `get_auth_for_url`
returns the twilio pair — regardless of the contents of the exact-match
credential table. -/
theorem C2_twilio_substring_wins (cfg : TwilioConfig) (url : String)
    (h1 : strHasSub (pyLower (netlocOf url)) "twilio.com" = true)
    (h2 : cfg.twilio_account_sid.isEmpty = false)
    (h3 : cfg.twilio_auth_token.isEmpty = false) :
    get_auth_for_url cfg url = some (cfg.twilio_account_sid, cfg.twilio_auth_token) := by
  simp [get_auth_for_url, h1, h2, h3]

/-- A twilio-configured state whose exact-match table also has an entry
for the host `sub.twilio.com`. -/
def subTwilioConfig : TwilioConfig :=
  { baseConfig with
    twilio_account_sid := "AC1", twilio_auth_token := "T1",
    auth_credentials :=
      [("sub.twilio.com",
        { username := "other", password := "pw", base_url := "https://sub.twilio.com" })] }

/-- C2 witness: even with a table entry for the exact host
`sub.twilio.com`, the twilio pair is returned. -/
theorem C2_twilio_substring_wins_witness :
    get_auth_for_url subTwilioConfig "https://sub.twilio.com/x" = some ("AC1", "T1") :=
  C2_twilio_substring_wins subTwilioConfig "https://sub.twilio.com/x"
    (by decide) (by decide) (by decide)

/-- C3: the configuration snapshot depends on the secrets only through
the boolean `twilio_configured` and on the credential table only through
its host keys: any two configurations agreeing on host, port, log level,
the configured-bit and the table keys — but with arbitrary secret, token
and password values — yield identical snapshots. -/
theorem C3_snapshot_independent_of_secrets (c1 c2 : TwilioConfig)
    (hh : c1.host = c2.host) (hp : c1.port = c2.port) (hl : c1.log_level = c2.log_level)
    (ht : (!c1.twilio_account_sid.isEmpty && !c1.twilio_auth_token.isEmpty)
        = (!c2.twilio_account_sid.isEmpty && !c2.twilio_auth_token.isEmpty))
    (hk : c1.auth_credentials.map Prod.fst = c2.auth_credentials.map Prod.fst) :
    get_server_config c1 = get_server_config c2 := by
  simp [get_server_config, hh, hp, hl, ht, hk]

/-- A configured state with one set of secret values. -/
def secretConfigA : TwilioConfig :=
  { baseConfig with
    twilio_account_sid := "ACsecretA", twilio_auth_token := "tokenA",
    auth_credentials :=
      [("example.com",
        { username := "bob", password := "passwordA", base_url := "https://example.com" })] }

/-- The same state with every secret value replaced. -/
def secretConfigB : TwilioConfig :=
  { baseConfig with
    twilio_account_sid := "ACsecretB", twilio_auth_token := "tokenB",
    auth_credentials :=
      [("example.com",
        { username := "alice", password := "passwordB", base_url := "https://example.com" })] }

/-- C3 witness: changing every secret value leaves the snapshot
unchanged. -/
theorem C3_snapshot_independent_of_secrets_witness :
    get_server_config secretConfigA = get_server_config secretConfigB :=
  C3_snapshot_independent_of_secrets secretConfigA secretConfigB rfl rfl rfl
    (by decide) (by decide)

/-- C4 counterexample: the fixed table does not have 8 entries (it has
13), its extensions do not number 7 distinct values (they number 9), and
the snapshot's supported format list does not have 8 elements (it has
9). -/
theorem C4_counts_counterexample :
    ¬ (extension_map.length = 8
      ∧ (extension_map.map Prod.snd).eraseDups.length = 7
      ∧ (get_server_config baseConfig).supported_audio_formats.length = 8) := by
  decide

/-- C4 (amended): the fixed table contains exactly 13 MIME types (all
distinct) mapping to exactly 9 distinct extensions, with `audio/mp4` and
`audio/m4a` both mapping to `.m4a` and `audio/wav`, `audio/x-wav`,
`audio/wave` all mapping to `.wav`, and the snapshot's
`supported_audio_formats` is the fixed list of 9 canonical extensions. -/
theorem C4_amended_counts :
    extension_map.length = 13
    ∧ (extension_map.map Prod.fst).Nodup
    ∧ (extension_map.map Prod.snd).eraseDups =
        [".wav", ".mp3", ".m4a", ".aac", ".ogg", ".flac", ".webm", ".3gp", ".amr"]
    ∧ List.lookup "audio/mp4" extension_map = some ".m4a"
    ∧ List.lookup "audio/m4a" extension_map = some ".m4a"
    ∧ List.lookup "audio/wav" extension_map = some ".wav"
    ∧ List.lookup "audio/x-wav" extension_map = some ".wav"
    ∧ List.lookup "audio/wave" extension_map = some ".wav"
    ∧ (get_server_config baseConfig).supported_audio_formats =
        ["wav", "mp3", "m4a", "aac", "ogg", "flac", "webm", "3gp", "amr"] := by
  decide

/-- C5: for every url that does not start with the literal `http://` or
`https://`, `download_twilio_audio` returns the unsupported-scheme
failure, and the result is the same for every network oracle — no
network call is observable. -/
theorem C5_unsupported_scheme_no_network (cfg : TwilioConfig)
    (net net2 : String → Option (String × String) → NetOutcome) (url : String)
    (h : (pyStartsWith url "http://" || pyStartsWith url "https://") = false) :
    download_twilio_audio cfg net url =
      ToolResult.response (failureResponse "Only HTTP and HTTPS URLs are supported")
    ∧ download_twilio_audio cfg net url = download_twilio_audio cfg net2 url := by
  constructor <;> simp [download_twilio_audio, h]

/-- A network oracle that always fails with a transport exception. -/
def exnNet : String → Option (String × String) → NetOutcome :=
  fun _ _ => NetOutcome.exn "boom"

/-- C5 witness: an `ftp://` url is rejected identically under two
different network oracles. -/
theorem C5_unsupported_scheme_no_network_witness :
    download_twilio_audio baseConfig exnNet "ftp://example.com/a" =
      ToolResult.response (failureResponse "Only HTTP and HTTPS URLs are supported")
    ∧ download_twilio_audio baseConfig exnNet "ftp://example.com/a"
      = download_twilio_audio baseConfig okWavNet "ftp://example.com/a" :=
  C5_unsupported_scheme_no_network baseConfig exnNet okWavNet "ftp://example.com/a" (by decide)

/-- The environment used by C6: a well-formed entry, an entry with no
`|`, an entry whose base url has an empty netloc, an entry whose base is
not a url, an entry showing first-separator splitting and host
lowercasing, and a non-`AUTH_` key. -/
def authEnv : List (String × String) :=
  [("AUTH_X", "https://example.com|bob:secret"),
   ("AUTH_Y", "no-separator"),
   ("AUTH_Z", "https://|u:p"),
   ("AUTH_W", "not-a-url|u:p"),
   ("AUTH_A", "https://EX.com|u:p:q"),
   ("OTHER", "https://other.com|x:y")]

/-- The configuration built from `authEnv`. -/
def authConfig : TwilioConfig :=
  { baseConfig with auth_credentials := load_auth_from_env authEnv }

/-- C6: building from `authEnv` registers exactly the two well-formed
entries — value split on the first `|`, auth part split on the first `:`
(so `u:p:q` gives password `p:q`), key the lowercased netloc — and
skips silently the entries missing a separator or with an empty host;
resolving `https://example.com/file` then returns bob's pair. -/
theorem C6_auth_env_parsing :
    load_auth_from_env authEnv =
      [("example.com", { username := "bob", password := "secret",
                         base_url := "https://example.com" }),
       ("ex.com", { username := "u", password := "p:q", base_url := "https://EX.com" })]
    ∧ get_auth_for_url authConfig "https://example.com/file" = some ("bob", "secret")
    ∧ splitFirst "https://example.com|bob:secret" '|' = ("https://example.com", "bob:secret")
    ∧ splitFirst "bob:secret" ':' = ("bob", "secret") := by
  decide

/-- C7: whenever the HTTP response has status 200 but its body buffers
to zero bytes, `download_twilio_audio` returns the
`Downloaded file is empty` failure, never the success shape. -/
theorem C7_empty_body_is_failure (cfg : TwilioConfig)
    (net : String → Option (String × String) → NetOutcome) (url : String)
    (resp : HttpResponse)
    (h1 : (pyStartsWith url "http://" || pyStartsWith url "https://") = true)
    (h2 : (netlocOf url).isEmpty = false)
    (h3 : net url (get_auth_for_url cfg url) = NetOutcome.ok resp)
    (h4 : resp.status = 200)
    (h5 : resp.chunks.foldl (fun acc c => acc ++ c) [] = ([] : List Nat)) :
    download_twilio_audio cfg net url =
      ToolResult.response (failureResponse "Downloaded file is empty") := by
  simp [download_twilio_audio, h1, h2, h3, h4, h5]

/-- A network oracle answering 200 with an empty body. -/
def emptyBodyNet : String → Option (String × String) → NetOutcome :=
  fun _ _ => NetOutcome.ok
    { status := 200, reason := "OK", contentType := some "audio/wav", chunks := [] }

/-- C7 witness: a 200 response with an empty body yields the
empty-payload failure. -/
theorem C7_empty_body_is_failure_witness :
    download_twilio_audio baseConfig emptyBodyNet "https://example.com/a" =
      ToolResult.response (failureResponse "Downloaded file is empty") :=
  C7_empty_body_is_failure baseConfig emptyBodyNet "https://example.com/a"
    { status := 200, reason := "OK", contentType := some "audio/wav", chunks := [] }
    (by decide) (by decide) rfl rfl rfl

/-- A network oracle answering the out-of-band status 600 with a
non-empty body; `raise_for_status` raises only for 4xx and 5xx, so the
code treats this response as a success. -/
def status600Net : String → Option (String × String) → NetOutcome :=
  fun _ _ => NetOutcome.ok
    { status := 600, reason := "Out Of Band", contentType := some "audio/wav", chunks := [[1]] }

/-- C8 counterexample: a response with status 600 (which is `>= 400`)
and a non-empty body is NOT mapped to a failure — `raise_for_status`
raises only for statuses in `[400, 600)`, so the code proceeds to the
success shape and returns the body bytes. -/
theorem C8_counterexample :
    400 ≤ (600 : Nat)
    ∧ download_twilio_audio baseConfig status600Net "https://example.com/a" =
        ToolResult.embedded "file://twilio_audio_a.wav" "AQ==" "audio/wav" := by
  decide

/-- C8 (amended): for every fetch whose HTTP response status is in
`[400, 600)` (the 4xx/5xx range `raise_for_status` raises for, e.g.
404), the result is the failure whose message is
`HTTP request failed for <url>: <status/cause>`, and it carries no
bytes (`data = none`). -/
theorem C8_amended_http_error (cfg : TwilioConfig)
    (net : String → Option (String × String) → NetOutcome) (url : String)
    (resp : HttpResponse)
    (h1 : (pyStartsWith url "http://" || pyStartsWith url "https://") = true)
    (h2 : (netlocOf url).isEmpty = false)
    (h3 : net url (get_auth_for_url cfg url) = NetOutcome.ok resp)
    (h4 : 400 ≤ resp.status) (h5 : resp.status < 600) :
    download_twilio_audio cfg net url =
      ToolResult.response (failureResponse
        ("HTTP request failed for " ++ url ++ ": " ++ raiseForStatusMsg resp url))
    ∧ (failureResponse
        ("HTTP request failed for " ++ url ++ ": " ++ raiseForStatusMsg resp url)).data
      = none := by
  refine ⟨?_, rfl⟩
  simp [download_twilio_audio, h1, h2, h3, h4, h5]

/-- A network oracle answering 404. -/
def notFoundNet : String → Option (String × String) → NetOutcome :=
  fun _ _ => NetOutcome.ok
    { status := 404, reason := "Not Found", contentType := none, chunks := [] }

/-- C8 witness: a 404 response yields the http-error failure with no
bytes. -/
theorem C8_amended_http_error_witness :
    download_twilio_audio baseConfig notFoundNet "https://example.com/missing" =
      ToolResult.response (failureResponse
        ("HTTP request failed for https://example.com/missing: "
          ++ "404 Client Error: Not Found for url: https://example.com/missing"))
    ∧ (failureResponse
        ("HTTP request failed for https://example.com/missing: "
          ++ "404 Client Error: Not Found for url: https://example.com/missing")).data
      = none :=
  C8_amended_http_error baseConfig notFoundNet "https://example.com/missing"
    { status := 404, reason := "Not Found", contentType := none, chunks := [] }
    (by decide) (by decide) rfl (by decide) (by decide)

/-- For an association list, looking a key up and defaulting yields
either the default or one of the stored values. -/
theorem lookup_getD_mem_snd (k d : String) :
    ∀ l : List (String × String),
      (List.lookup k l).getD d = d ∨ (List.lookup k l).getD d ∈ l.map Prod.snd := by
  intro l
  induction l with
  | nil => exact Or.inl rfl
  | cons p t ih =>
    obtain ⟨pk, pv⟩ := p
    cases hk : (k == pk) with
    | true =>
      right
      simp [List.lookup, hk]
    | false =>
      have hstep : List.lookup k ((pk, pv) :: t) = List.lookup k t := by
        simp [List.lookup, hk]
      rw [hstep]
      rcases ih with h2 | h2
      · exact Or.inl h2
      · exact Or.inr (by simp [h2])

/-- C9: the content-type resolver is total and pure — it normalizes by
lowercasing, cutting at the first `;` and stripping whitespace, maps
`audio/wav; codec=1` to `.wav` and `AUDIO/MP4` to `.m4a`, maps the
unknown `text/plain` to the fallback `.bin`, and on every input returns
either the fallback or a table extension. -/
theorem C9_resolver_total_with_fallback :
    get_file_extension_from_content_type "audio/wav; codec=1" = ".wav"
    ∧ get_file_extension_from_content_type "AUDIO/MP4" = ".m4a"
    ∧ get_file_extension_from_content_type "text/plain" = ".bin"
    ∧ ∀ s : String,
        get_file_extension_from_content_type s = ".bin"
        ∨ get_file_extension_from_content_type s ∈ extension_map.map Prod.snd := by
  refine ⟨by decide, by decide, by decide, fun s => ?_⟩
  simp only [get_file_extension_from_content_type]
  exact lookup_getD_mem_snd _ ".bin" extension_map

/-- C10: credential routing is keyed on the full lowercased netloc
including any explicit port: whenever the twilio branch does not apply,
`get_auth_for_url` is exactly the table lookup of the lowercased netloc
of the queried url; the netloc of a port-bearing url keeps its port, so
a route registered for `example.com` is not found for
`example.com:8080`; and the twilio substring check scans the whole
port-bearing netloc, matching `api.twilio.com:8080`. -/
theorem C10_routing_keyed_on_full_netloc :
    (∀ (cfg : TwilioConfig) (url : String),
      (strHasSub (pyLower (netlocOf url)) "twilio.com"
        && !cfg.twilio_account_sid.isEmpty && !cfg.twilio_auth_token.isEmpty) = false →
      get_auth_for_url cfg url =
        (List.lookup (pyLower (netlocOf url)) cfg.auth_credentials).map
          (fun c => (c.username, c.password)))
    ∧ netlocOf "https://example.com:8080/f" = "example.com:8080"
    ∧ strHasSub (pyLower (netlocOf "https://api.twilio.com:8080/x")) "twilio.com" = true
    ∧ get_auth_for_url subTwilioConfig "https://api.twilio.com:8080/x" = some ("AC1", "T1") := by
  refine ⟨fun cfg url h => ?_, by decide, by decide, by decide⟩
  simp only [get_auth_for_url, h, Bool.false_eq_true, if_false]
  cases List.lookup (pyLower (netlocOf url)) cfg.auth_credentials <;> rfl

/-- The configuration whose only route was built from the portless base
url `https://example.com`. -/
def portRouteConfig : TwilioConfig :=
  { baseConfig with
    auth_credentials := load_auth_from_env [("AUTH_X", "https://example.com|bob:secret")] }

/-- C10 witness: the route registered for `example.com` is not found
when the queried url carries an explicit port. -/
theorem C10_routing_keyed_on_full_netloc_witness :
    get_auth_for_url portRouteConfig "https://example.com:8080/f" = none :=
  (C10_routing_keyed_on_full_netloc.1 portRouteConfig "https://example.com:8080/f"
    (by decide)).trans (by decide)
